import Mathlib

/-!
Shallow embedding of the ntfy server message cache (src/server/message_cache.go).

The SQLite database backing the cache is modelled as an explicit list of rows
plus the AUTOINCREMENT counter for the internal row id; each SQL statement of
the Go file becomes a pure function on that state.  Wall-clock reads
(time.Now().Unix()) become an explicit `now : Int` argument.  Storage-level
I/O failures are outside the model; the error type covers the conditions the
Go code itself produces (the unexpected-message-type misuse error).
-/

namespace NtfyCache

/-- Modelled from the spec: the message event kinds (declared in the server
package outside message_cache.go). Only `message` events are persisted;
the other kinds are control events. -/
inductive Event where
  | message
  | keepalive
  | openEvent
  | pollRequest
deriving DecidableEq, Repr

/-- Modelled from the spec: the attachment metadata carried by a message
(declared outside message_cache.go); fields per the data model section. -/
structure Attachment where
  name : String
  type : String
  size : Int
  expires : Int
  url : String
  owner : String
deriving DecidableEq, Repr

/-- Modelled from the spec: the message value callers construct (declared
outside message_cache.go); only the fields message_cache.go reads are kept. -/
structure Message where
  id : String
  time : Int
  updated : Int
  event : Event
  topic : String
  message : String
  title : String
  priority : Int
  tags : List String
  click : String
  attachment : Option Attachment
  encoding : String
deriving DecidableEq, Repr

/-- One row of the `messages` table as created by createMessagesTableQuery:
the AUTOINCREMENT primary key `id` (the internal row position), the
caller-supplied message id `mid`, and the flattened message fields. -/
structure Row where
  id : Int
  mid : String
  time : Int
  updated : Int
  topic : String
  message : String
  title : String
  priority : Int
  tags : String
  click : String
  attachment_name : String
  attachment_type : String
  attachment_size : Int
  attachment_expires : Int
  attachment_url : String
  attachment_owner : String
  encoding : String
  published : Bool
deriving DecidableEq, Repr

/-- The SQLite database state: the rows of the `messages` table in insertion
order, and the next AUTOINCREMENT value for the row id. -/
structure DB where
  rows : List Row
  nextRowID : Int
deriving DecidableEq, Repr

/-- The messageCache struct: the database handle and the no-op flag. -/
structure MessageCache where
  db : DB
  nop : Bool
deriving DecidableEq, Repr

/-- The errors message_cache.go itself produces on the write paths
(errUnexpectedMessageType); storage I/O errors are outside the model. -/
inductive CacheError where
  | unexpectedMessageType
deriving DecidableEq, Repr

/-- Modelled from the spec: the sinceMarker replay cursor (declared outside
message_cache.go) — one of none, all-messages, a timestamp, or a message id. -/
inductive SinceMarker where
  | noMessages
  | allMessages
  | sinceTime (t : Int)
  | sinceID (s : String)
deriving DecidableEq, Repr

/-- Modelled from the spec: sinceMarker.IsNone. -/
def SinceMarker.isNone : SinceMarker → Bool
  | SinceMarker.noMessages => true
  | _ => false

/-- Modelled from the spec: sinceMarker.IsID. -/
def SinceMarker.isID : SinceMarker → Bool
  | SinceMarker.sinceID _ => true
  | _ => false

/-- Modelled from the spec: sinceMarker.Time().Unix() — the timestamp the
marker stands for; allMessages is the beginning of time (0). -/
def SinceMarker.timeVal : SinceMarker → Int
  | SinceMarker.sinceTime t => t
  | _ => 0

/-- Modelled from the spec: sinceMarker.ID() — the message id of an id marker. -/
def SinceMarker.idVal : SinceMarker → String
  | SinceMarker.sinceID s => s
  | _ => ""

/-- The row insertMessageQuery writes for a message: published is computed by
comparing the message time to the current instant, tags are joined with
commas, and an absent attachment flattens to empty/zero column values
(AddMessage lines 226-257). `rowID` is the AUTOINCREMENT value SQLite
assigns. -/
def messageToRow (rowID now : Int) (m : Message) : Row :=
  match m.attachment with
  | Option.none =>
      { id := rowID, mid := m.id, time := m.time, updated := m.updated,
        topic := m.topic, message := m.message, title := m.title,
        priority := m.priority, tags := String.intercalate "," m.tags,
        click := m.click, attachment_name := "", attachment_type := "",
        attachment_size := 0, attachment_expires := 0, attachment_url := "",
        attachment_owner := "", encoding := m.encoding,
        published := decide (m.time ≤ now) }
  | Option.some a =>
      { id := rowID, mid := m.id, time := m.time, updated := m.updated,
        topic := m.topic, message := m.message, title := m.title,
        priority := m.priority, tags := String.intercalate "," m.tags,
        click := m.click, attachment_name := a.name, attachment_type := a.type,
        attachment_size := a.size, attachment_expires := a.expires,
        attachment_url := a.url, attachment_owner := a.owner,
        encoding := m.encoding, published := decide (m.time ≤ now) }

/-- AddMessage: rejects non-message events, succeeds without writing in no-op
mode, otherwise executes insertMessageQuery with the flattened fields. -/
def AddMessage (c : MessageCache) (now : Int) (m : Message) :
    Except CacheError MessageCache :=
  if m.event ≠ Event.message then
    Except.error CacheError.unexpectedMessageType
  else if c.nop then
    Except.ok c
  else
    Except.ok { c with
      db := { rows := c.db.rows ++ [messageToRow c.db.nextRowID now m],
              nextRowID := c.db.nextRowID + 1 } }

/-- The effect of updateMessageQuery on one row: rows matching the topic and
message id get the six mutable columns rewritten; all other rows are left
as they are. -/
def updateRow (m : Message) (r : Row) : Row :=
  if r.topic = m.topic ∧ r.mid = m.id then
    { r with updated := m.updated, message := m.message, title := m.title,
             priority := m.priority, tags := String.intercalate "," m.tags,
             click := m.click }
  else r

/-- UpdateMessage: rejects non-message events, succeeds without writing in
no-op mode, otherwise executes updateMessageQuery (UPDATE messages SET
updated, message, title, priority, tags, click WHERE topic AND mid). -/
def UpdateMessage (c : MessageCache) (m : Message) :
    Except CacheError MessageCache :=
  if m.event ≠ Event.message then
    Except.error CacheError.unexpectedMessageType
  else if c.nop then
    Except.ok c
  else
    Except.ok { c with db := { c.db with rows := c.db.rows.map (updateRow m) } }

/-- The effect of updateMessagePublishedQuery on one row: UPDATE messages SET
published = 1 WHERE mid = ? — matching is by message id alone, with no topic
condition. -/
def publishRow (m : Message) (r : Row) : Row :=
  if r.mid = m.id then { r with published := true } else r

/-- MarkPublished: executes updateMessagePublishedQuery; there is no event
check and no no-op short-circuit on this path. -/
def MarkPublished (c : MessageCache) (m : Message) : Except CacheError MessageCache :=
  Except.ok { c with db := { c.db with rows := c.db.rows.map (publishRow m) } }

/-- Prune: executes pruneMessagesQuery, DELETE FROM messages WHERE time < ?
AND published = 1; the surviving rows are those not matching the delete
condition. -/
def Prune (c : MessageCache) (olderThan : Int) : MessageCache :=
  { c with db := { c.db with
      rows := c.db.rows.filter
        (fun r => !(decide (r.time < olderThan) && r.published)) } }

/-- The running total computed by selectAttachmentsSizeQuery,
SELECT IFNULL(SUM(attachment_size), 0) FROM messages WHERE attachment_owner =
? AND attachment_expires >= ?: a scan over the rows adding the size of each
row whose owner matches and whose expiry has not passed. -/
def sumAttachmentSizes (owner : String) (now : Int) : List Row → Int
  | [] => 0
  | r :: rest =>
      (if r.attachment_owner = owner ∧ now ≤ r.attachment_expires then
        r.attachment_size
      else 0) + sumAttachmentSizes owner now rest

/-- AttachmentsSize: runs selectAttachmentsSizeQuery for the owner at the
current instant. -/
def AttachmentsSize (c : MessageCache) (now : Int) (owner : String) : Int :=
  sumAttachmentSizes owner now c.db.rows

/-- SQL ordering comparison for ORDER BY time, id: earlier delivery time
first, ties broken by the internal row id. -/
def rowLE (a b : Row) : Bool :=
  decide (a.time < b.time) || (decide (a.time = b.time) && decide (a.id ≤ b.id))

/-- Insertion step of the ORDER BY time, id sort. -/
def insertRowSorted (r : Row) : List Row → List Row
  | [] => [r]
  | x :: xs => if rowLE r x then r :: x :: xs else x :: insertRowSorted r xs

/-- The ORDER BY time, id clause shared by every message select query. -/
def sortRows : List Row → List Row
  | [] => []
  | x :: xs => insertRowSorted x (sortRows xs)

/-- selectMessagesSinceTimeQuery: topic match, time >= t, published only. -/
def selectMessagesSinceTime (db : DB) (topic : String) (t : Int) : List Row :=
  sortRows (db.rows.filter
    (fun r => decide (r.topic = topic ∧ t ≤ r.time ∧ r.published = true)))

/-- selectMessagesSinceTimeIncludeScheduledQuery: topic match, time >= t,
any published state. -/
def selectMessagesSinceTimeIncludeScheduled (db : DB) (topic : String) (t : Int) :
    List Row :=
  sortRows (db.rows.filter (fun r => decide (r.topic = topic ∧ t ≤ r.time)))

/-- selectMessagesSinceIDQuery: topic match, row id strictly after the
resolved position, published only. -/
def selectMessagesSinceID (db : DB) (topic : String) (rowID : Int) : List Row :=
  sortRows (db.rows.filter
    (fun r => decide (r.topic = topic ∧ (rowID < r.id ∧ r.published = true))))

/-- selectMessagesSinceIDIncludeScheduledQuery: topic match, and either the
row id is strictly after the resolved position or the row is unpublished. -/
def selectMessagesSinceIDIncludeScheduled (db : DB) (topic : String) (rowID : Int) :
    List Row :=
  sortRows (db.rows.filter
    (fun r => decide (r.topic = topic ∧ (rowID < r.id ∨ r.published = false))))

/-- selectRowIDFromMessageID: resolve a message id to its internal row id
within a topic; the code reads the first returned row, so the first match in
row order is taken. -/
def findRowID (db : DB) (topic mid : String) : Option Int :=
  Option.map (fun r => r.id)
    (List.find? (fun r => decide (r.topic = topic ∧ r.mid = mid)) db.rows)

/-- The Go nil-vs-empty tags convention of readMessages: an empty joined
string reads back as no tags. -/
def splitTags (s : String) : List String :=
  if s = "" then [] else s.splitOn ","

/-- readMessages' per-row reconstruction: tags are split on commas, and the
attachment is materialised only when both name and url are non-empty. -/
def rowToMessage (r : Row) : Message :=
  { id := r.mid, time := r.time, updated := r.updated, event := Event.message,
    topic := r.topic, message := r.message, title := r.title,
    priority := r.priority, tags := splitTags r.tags, click := r.click,
    attachment :=
      if r.attachment_name ≠ "" ∧ r.attachment_url ≠ "" then
        Option.some { name := r.attachment_name, type := r.attachment_type,
                      size := r.attachment_size, expires := r.attachment_expires,
                      url := r.attachment_url, owner := r.attachment_owner }
      else Option.none,
    encoding := r.encoding }

/-- readMessages over a query result. -/
def readMessages (rows : List Row) : List Message :=
  rows.map rowToMessage

/-- messagesSinceTime: dispatch on the scheduled flag between the two
time-range queries. -/
def messagesSinceTime (c : MessageCache) (topic : String) (since : SinceMarker)
    (scheduled : Bool) : List Message :=
  if scheduled then
    readMessages (selectMessagesSinceTimeIncludeScheduled c.db topic since.timeVal)
  else
    readMessages (selectMessagesSinceTime c.db topic since.timeVal)

/-- messagesSinceID: resolve the id marker to a row position; when no row of
the topic carries that message id, fall back to the all-messages time query,
otherwise run the position-range query for the scheduled flag. -/
def messagesSinceID (c : MessageCache) (topic : String) (since : SinceMarker)
    (scheduled : Bool) : List Message :=
  match findRowID c.db topic since.idVal with
  | Option.none => messagesSinceTime c topic SinceMarker.allMessages scheduled
  | Option.some rowID =>
      if scheduled then
        readMessages (selectMessagesSinceIDIncludeScheduled c.db topic rowID)
      else
        readMessages (selectMessagesSinceID c.db topic rowID)

/-- Messages: a none marker returns the empty sequence without a query; an id
marker goes through the id-cursor path; anything else through the time path. -/
def Messages (c : MessageCache) (topic : String) (since : SinceMarker)
    (scheduled : Bool) : List Message :=
  if since.isNone then []
  else if since.isID then messagesSinceID c topic since scheduled
  else messagesSinceTime c topic since scheduled

/-!
Schema model for the migration engine.  A database schema is the column list
of the `messages` table (absent on a brand-new store) and the recorded
schema version (absent until the schemaVersion row is written).  Each
db.Exec call of the Go migration code — a single SQL statement, or a script
explicitly wrapped in BEGIN/COMMIT — is one atomic state transformer; a
migration step is the ordered list of its Exec calls, and fault injection
can stop execution before any one of them, mirroring an Exec error return.
-/

/-- The persisted schema state: the columns of the `messages` table (none =
table absent) and the recorded schema version (none = no version row). -/
structure SchemaState where
  messagesCols : Option (List String)
  schemaVersion : Option Int
deriving DecidableEq, Repr

/-- currentSchemaVersion = 5. -/
def currentSchemaVersion : Int := 5

/-- The columns of the `messages` table as createMessagesTableQuery creates
it on a fresh store, in declaration order (it includes `updated`). -/
def createMessagesTableCols : List String :=
  ["id", "mid", "time", "updated", "topic", "message", "title", "priority",
   "tags", "click", "attachment_name", "attachment_type", "attachment_size",
   "attachment_expires", "attachment_url", "attachment_owner", "encoding",
   "published"]

/-- The columns of the rebuilt table messages_new in
migrate4To5AlterMessagesTableQuery, in declaration order (it has no
`updated` column). -/
def migrate4To5Cols : List String :=
  ["id", "mid", "time", "topic", "message", "title", "priority", "tags",
   "click", "attachment_name", "attachment_type", "attachment_size",
   "attachment_expires", "attachment_url", "attachment_owner", "encoding",
   "published"]

/-- Modelled from the spec: the legacy pre-versioning (version 0) layout is
not created by any query in this repository's files; its columns are the
message fields present before the 0-to-1 step adds title, priority, tags. -/
def legacyV0Cols : List String := ["id", "time", "topic", "message"]

/-- The columns after the 0-to-1 step (migrate0To1AlterMessagesTableQuery). -/
def version1Cols : List String := legacyV0Cols ++ ["title", "priority", "tags"]

/-- The columns after the 1-to-2 step (migrate1To2AlterMessagesTableQuery). -/
def version2Cols : List String := version1Cols ++ ["published"]

/-- The columns after the 2-to-3 step (migrate2To3AlterMessagesTableQuery). -/
def version3Cols : List String :=
  version2Cols ++ ["click", "attachment_name", "attachment_type",
                   "attachment_size", "attachment_expires", "attachment_owner",
                   "attachment_url"]

/-- The columns after the 3-to-4 step (migrate3To4AlterMessagesTableQuery). -/
def version4Cols : List String := version3Cols ++ ["encoding"]

/-- ALTER TABLE messages ADD COLUMN, for each named column in order; a
multi-ALTER script wrapped in BEGIN/COMMIT is one such atomic call. -/
def addCols (new : List String) (s : SchemaState) : SchemaState :=
  { s with messagesCols := s.messagesCols.map (fun cols => cols ++ new) }

/-- Writing the schema version row (insertSchemaVersion on first use,
updateSchemaVersion afterwards — both set the single recorded value). -/
def setVersion (v : Int) (s : SchemaState) : SchemaState :=
  { s with schemaVersion := Option.some v }

/-- The BEGIN/COMMIT script of migrate4To5AlterMessagesTableQuery: build
messages_new with the fixed column list, copy the listed columns across,
drop messages and rename — the messages table ends with exactly the
messages_new columns. -/
def migrate4To5Rebuild (s : SchemaState) : SchemaState :=
  { s with messagesCols := Option.some migrate4To5Cols }

/-- The ordered atomic Exec calls of migrateFrom1's own 1-to-2 step, before
it chains into migrateFrom2: the single ALTER statement, then the separate
updateSchemaVersion statement. -/
def migrateFrom1Step : List (SchemaState → SchemaState) :=
  [addCols ["published"], setVersion 2]

/-- The ordered atomic Exec calls of migrateFrom4's 4-to-5 step: the
BEGIN/COMMIT rebuild script, then the separate updateSchemaVersion
statement. -/
def migrateFrom4Step : List (SchemaState → SchemaState) :=
  [migrate4To5Rebuild, setVersion 5]

/-- The ordered atomic Exec calls of setupNewCacheDB on a fresh store:
create the messages table (BEGIN/COMMIT script), create the schemaVersion
table, insert the current version. Creating the empty schemaVersion table
leaves the recorded version still absent, so it is the identity here. -/
def setupNewCacheDBStmts : List (SchemaState → SchemaState) :=
  [fun s => { s with messagesCols := Option.some createMessagesTableCols },
   fun s => s,
   setVersion currentSchemaVersion]

/-- Run atomic statements in order under fault injection: when failAt = some
k, the k-th statement (0-based) fails before taking any effect and execution
stops there, mirroring the Go code returning the Exec error; the Bool says
whether every statement succeeded. -/
def runStmts : List (SchemaState → SchemaState) → Option Nat → SchemaState →
    SchemaState × Bool
  | [], _, s => (s, true)
  | _ :: _, Option.some 0, s => (s, false)
  | f :: rest, Option.some (k + 1), s => runStmts rest (Option.some k) (f s)
  | f :: rest, Option.none, s => runStmts rest Option.none (f s)

/-- A store holding a version-1 layout, as migrateFrom1 finds it. -/
def schemaAtV1 : SchemaState :=
  { messagesCols := Option.some version1Cols, schemaVersion := Option.some 1 }

/-- A store holding a version-4 layout, as migrateFrom4 finds it. -/
def schemaAtV4 : SchemaState :=
  { messagesCols := Option.some version4Cols, schemaVersion := Option.some 4 }

/-- The schema of a freshly created store: setupNewCacheDB run to completion
from an empty database. -/
def freshStoreSchema : SchemaState :=
  (runStmts setupNewCacheDBStmts Option.none
    { messagesCols := Option.none, schemaVersion := Option.none }).1

/-!  Helper lemmas about the sort and the row operations.  -/

theorem mem_insertRowSorted (a r : Row) (l : List Row) :
    a ∈ insertRowSorted r l ↔ a = r ∨ a ∈ l := by
  induction l with
  | nil => simp [insertRowSorted]
  | cons x xs ih =>
      by_cases h : rowLE r x
      · simp [insertRowSorted, h]
      · simp [insertRowSorted, h, ih]
        tauto

theorem mem_sortRows (a : Row) (l : List Row) : a ∈ sortRows l ↔ a ∈ l := by
  induction l with
  | nil => simp [sortRows]
  | cons x xs ih => simp [sortRows, mem_insertRowSorted, ih]

theorem map_fixed_of_fixed (f : Row → Row) (l : List Row)
    (h : ∀ r ∈ l, f r = r) : l.map f = l := by
  induction l with
  | nil => rfl
  | cons x xs ih =>
      simp only [List.map_cons, h x (List.mem_cons_self x xs)]
      rw [ih (fun r hr => h r (List.mem_cons_of_mem x hr))]

theorem publishRow_idem (m : Message) (r : Row) :
    publishRow m (publishRow m r) = publishRow m r := by
  by_cases h : r.mid = m.id <;> simp [publishRow, h]

/-! Concrete fixtures used by the witnesses. -/

/-- An empty, non-no-op cache. -/
def exCacheA : MessageCache := { db := { rows := [], nextRowID := 1 }, nop := false }

/-- A deliverable message without attachment. -/
def exMsgA : Message :=
  { id := "m1", time := 3, updated := 4, event := Event.message,
    topic := "alerts", message := "hello", title := "hi", priority := 2,
    tags := ["a", "b"], click := "", attachment := Option.none, encoding := "" }

/-- A no-op cache. -/
def exNopCache : MessageCache := { db := { rows := [], nextRowID := 1 }, nop := true }

/-- A keepalive (non-message) event value. -/
def exKeepalive : Message :=
  { id := "k1", time := 0, updated := 0, event := Event.keepalive,
    topic := "alerts", message := "", title := "", priority := 0,
    tags := [], click := "", attachment := Option.none, encoding := "" }

/-- Claim C10: for every message whose event kind is not messageEvent,
AddMessage and UpdateMessage return the unexpected-message-type error even in
no-op mode — the event check precedes the no-op short-circuit. -/
theorem nop_mode_rejects_non_message_event (c : MessageCache) (now : Int)
    (m : Message) (_hnop : c.nop = true) (hev : m.event ≠ Event.message) :
    AddMessage c now m = Except.error CacheError.unexpectedMessageType
    ∧ UpdateMessage c m = Except.error CacheError.unexpectedMessageType := by
  constructor <;> simp [AddMessage, UpdateMessage, hev]

/-- Witness for C10: the no-op cache rejects a keepalive event on both write
paths. -/
theorem nop_mode_rejects_non_message_event_witness :
    AddMessage exNopCache 0 exKeepalive
        = Except.error CacheError.unexpectedMessageType
    ∧ UpdateMessage exNopCache exKeepalive
        = Except.error CacheError.unexpectedMessageType :=
  nop_mode_rejects_non_message_event exNopCache 0 exKeepalive rfl (by decide)

/-- Claim C7: MarkPublished flips published to true on every row whose
message id matches, with no topic condition, leaves non-matching rows
untouched, and is idempotent: a second application returns the same state
with no error. -/
theorem markPublished_by_id_idempotent (c : MessageCache) (m : Message) :
    MarkPublished c m
        = Except.ok { c with db := { c.db with rows := c.db.rows.map (publishRow m) } }
    ∧ (∀ r : Row, r.mid = m.id → publishRow m r = { r with published := true })
    ∧ (∀ r : Row, r.mid ≠ m.id → publishRow m r = r)
    ∧ (∀ r ∈ c.db.rows.map (publishRow m), r.mid = m.id → r.published = true)
    ∧ (∀ c2 : MessageCache, MarkPublished c m = Except.ok c2 →
        MarkPublished c2 m = Except.ok c2) := by
  refine ⟨rfl, ?_, ?_, ?_, ?_⟩
  · intro r h; simp [publishRow, h]
  · intro r h; simp [publishRow, h]
  · intro r hr hmid
    obtain ⟨r0, hr0, rfl⟩ := List.mem_map.mp hr
    by_cases h : r0.mid = m.id
    · simp [publishRow, h]
    · simp only [publishRow, if_neg h] at hmid
      exact absurd hmid h
  · intro c2 h
    have hc2 : c2
        = { c with db := { c.db with rows := c.db.rows.map (publishRow m) } } := by
      simpa [MarkPublished] using h.symm
    subst hc2
    simp only [MarkPublished, Except.ok.injEq]
    have : (c.db.rows.map (publishRow m)).map (publishRow m)
        = c.db.rows.map (publishRow m) := by
      rw [List.map_map]
      exact List.map_congr_left (fun r _ => publishRow_idem m r)
    simp [this]

/-- Claim C4: Prune deletes exactly the published rows older than the
cutoff; unpublished rows survive regardless of age, and published rows at
or after the cutoff survive. -/
theorem prune_deletes_exactly_old_published (c : MessageCache) (cutoff : Int) :
    (∀ r : Row, r ∈ (Prune c cutoff).db.rows
        ↔ r ∈ c.db.rows ∧ ¬(r.time < cutoff ∧ r.published = true))
    ∧ (∀ r ∈ c.db.rows, r.published = false → r ∈ (Prune c cutoff).db.rows)
    ∧ (∀ r ∈ c.db.rows, cutoff ≤ r.time → r ∈ (Prune c cutoff).db.rows)
    ∧ (∀ r ∈ c.db.rows, r.time < cutoff → r.published = true →
        r ∉ (Prune c cutoff).db.rows) := by
  have key : ∀ r : Row, r ∈ (Prune c cutoff).db.rows
      ↔ r ∈ c.db.rows ∧ ¬(r.time < cutoff ∧ r.published = true) := by
    intro r
    simp [Prune, List.mem_filter]
    intro _
    constructor
    · intro h h1
      rcases h with h | h
      · omega
      · exact h
    · intro h
      by_cases hq : r.time < cutoff
      · exact Or.inr (h hq)
      · exact Or.inl (by omega)
  refine ⟨key, ?_, ?_, ?_⟩
  · intro r hr hpub
    exact (key r).mpr ⟨hr, by simp [hpub]⟩
  · intro r hr htime
    exact (key r).mpr ⟨hr, fun h => absurd h.1 (by omega)⟩
  · intro r hr htime hpub hmem
    exact ((key r).mp hmem).2 ⟨htime, hpub⟩

theorem sumAttachmentSizes_eq_filter_sum (owner : String) (now : Int)
    (l : List Row) :
    sumAttachmentSizes owner now l
      = ((l.filter
            (fun r => decide (r.attachment_owner = owner ∧ now ≤ r.attachment_expires))).map
          (fun r => r.attachment_size)).sum := by
  induction l with
  | nil => rfl
  | cons r rest ih =>
      by_cases h : r.attachment_owner = owner ∧ now ≤ r.attachment_expires
      · simp [sumAttachmentSizes, h, ih]
      · simp [sumAttachmentSizes, h, ih]

/-- Claim C9: AttachmentsSize(owner) is exactly the sum of attachment_size
over rows with that owner whose expiry has not passed; it is 0 when no such
row exists, and an expired or differently-owned row contributes nothing. -/
theorem attachmentsSize_sums_unexpired_owner (c : MessageCache) (now : Int)
    (owner : String) :
    (AttachmentsSize c now owner
        = ((c.db.rows.filter
              (fun r => decide (r.attachment_owner = owner ∧ now ≤ r.attachment_expires))).map
            (fun r => r.attachment_size)).sum)
    ∧ ((∀ r ∈ c.db.rows, ¬(r.attachment_owner = owner ∧ now ≤ r.attachment_expires)) →
        AttachmentsSize c now owner = 0)
    ∧ (∀ r : Row, r.attachment_expires < now →
        sumAttachmentSizes owner now (r :: c.db.rows)
          = sumAttachmentSizes owner now c.db.rows)
    ∧ (∀ r : Row, r.attachment_owner ≠ owner →
        sumAttachmentSizes owner now (r :: c.db.rows)
          = sumAttachmentSizes owner now c.db.rows) := by
  refine ⟨sumAttachmentSizes_eq_filter_sum owner now c.db.rows, ?_, ?_, ?_⟩
  · intro hall
    have : c.db.rows.filter
        (fun r => decide (r.attachment_owner = owner ∧ now ≤ r.attachment_expires)) = [] := by
      refine List.filter_eq_nil_iff.mpr ?_
      intro r hr
      simpa using hall r hr
    rw [AttachmentsSize, sumAttachmentSizes_eq_filter_sum, this]
    rfl
  · intro r h
    have : ¬(r.attachment_owner = owner ∧ now ≤ r.attachment_expires) := by
      rintro ⟨_, h2⟩; omega
    simp [sumAttachmentSizes, this]
  · intro r h
    have : ¬(r.attachment_owner = owner ∧ now ≤ r.attachment_expires) := by
      rintro ⟨h1, _⟩; exact h h1
    simp [sumAttachmentSizes, this]

/-- Counterexample to C5 as stated: in migrateFrom1's 1-to-2 step the ALTER
adding the published column and the updateSchemaVersion write are separate
Exec calls, so a failure of the second call (fault injected at statement 1)
leaves the structural change in effect while the recorded version is still 1
— the step is neither rolled back nor completed. -/
theorem migration_step_not_atomic_cex :
    ((runStmts migrateFrom1Step (Option.some 1) schemaAtV1).2 = false)
    ∧ ((runStmts migrateFrom1Step (Option.some 1) schemaAtV1).1.messagesCols
        = Option.some (version1Cols ++ ["published"]))
    ∧ ((runStmts migrateFrom1Step (Option.some 1) schemaAtV1).1.schemaVersion
        = Option.some 1)
    ∧ ¬((runStmts migrateFrom1Step (Option.some 1) schemaAtV1).1 = schemaAtV1
        ∨ (runStmts migrateFrom1Step (Option.some 1) schemaAtV1).1
            = setVersion 2 (addCols ["published"] schemaAtV1)) := by
  refine ⟨rfl, rfl, rfl, ?_⟩
  decide

/-- Claim C5 amended: each individual Exec of a migration step is atomic, so
the structural change itself never leaves a partial column set; but the
version bump is a separate Exec from the structural change, so a step
interrupted at any point is in exactly one of three states — untouched,
structurally migrated with the old version recorded, or fully migrated —
shown here for the steps of migrateFrom1 (1-to-2) and migrateFrom4 (4-to-5). -/
theorem migration_step_exec_granularity (s : SchemaState) (failAt : Option Nat) :
    ((runStmts migrateFrom1Step failAt s).1 = s
      ∨ (runStmts migrateFrom1Step failAt s).1 = addCols ["published"] s
      ∨ (runStmts migrateFrom1Step failAt s).1
          = setVersion 2 (addCols ["published"] s))
    ∧ ((runStmts migrateFrom4Step failAt s).1 = s
      ∨ (runStmts migrateFrom4Step failAt s).1 = migrate4To5Rebuild s
      ∨ (runStmts migrateFrom4Step failAt s).1
          = setVersion 5 (migrate4To5Rebuild s)) := by
  match failAt with
  | Option.none =>
      exact ⟨Or.inr (Or.inr rfl), Or.inr (Or.inr rfl)⟩
  | Option.some 0 =>
      exact ⟨Or.inl rfl, Or.inl rfl⟩
  | Option.some 1 =>
      exact ⟨Or.inr (Or.inl rfl), Or.inr (Or.inl rfl)⟩
  | Option.some (k + 2) =>
      exact ⟨Or.inr (Or.inr rfl), Or.inr (Or.inr rfl)⟩

/-- Claim C6, evaluated on the code: the table migrate4To5 rebuilds has no
updated column while a freshly created store's table has one, so a store
migrated from version 4 to the current version 5 does not end with the same
persisted layout as a fresh store — the migrated layout is missing the
updated field that createMessagesTableQuery, insertMessageQuery and
readMessages all use. -/
theorem migrate4To5_drops_updated_column :
    ("updated" ∈ createMessagesTableCols)
    ∧ ("updated" ∉ migrate4To5Cols)
    ∧ ((runStmts migrateFrom4Step Option.none schemaAtV4).1.messagesCols
        = Option.some migrate4To5Cols)
    ∧ ((runStmts migrateFrom4Step Option.none schemaAtV4).1.schemaVersion
        = Option.some currentSchemaVersion)
    ∧ (freshStoreSchema.messagesCols = Option.some createMessagesTableCols)
    ∧ (freshStoreSchema.schemaVersion = Option.some currentSchemaVersion)
    ∧ migrate4To5Cols ≠ createMessagesTableCols := by
  refine ⟨by decide, by decide, rfl, rfl, rfl, rfl, by decide⟩

/-- Claim C1: inserting a deliverable message into a non-no-op cache appends
exactly one row whose published flag is true iff the message time is at or
before the current instant, with all other fields written as given, tags
comma-joined, and an absent attachment flattened to empty/zero values. -/
theorem addMessage_flattens_and_sets_published (c : MessageCache) (now : Int)
    (m : Message) (hev : m.event = Event.message) (hnop : c.nop = false) :
    AddMessage c now m = Except.ok { c with
        db := { rows := c.db.rows ++ [messageToRow c.db.nextRowID now m],
                nextRowID := c.db.nextRowID + 1 } }
    ∧ ((messageToRow c.db.nextRowID now m).published = true ↔ m.time ≤ now)
    ∧ (messageToRow c.db.nextRowID now m).mid = m.id
    ∧ (messageToRow c.db.nextRowID now m).time = m.time
    ∧ (messageToRow c.db.nextRowID now m).updated = m.updated
    ∧ (messageToRow c.db.nextRowID now m).topic = m.topic
    ∧ (messageToRow c.db.nextRowID now m).message = m.message
    ∧ (messageToRow c.db.nextRowID now m).title = m.title
    ∧ (messageToRow c.db.nextRowID now m).priority = m.priority
    ∧ (messageToRow c.db.nextRowID now m).tags = String.intercalate "," m.tags
    ∧ (messageToRow c.db.nextRowID now m).click = m.click
    ∧ (messageToRow c.db.nextRowID now m).encoding = m.encoding
    ∧ (messageToRow c.db.nextRowID now m).id = c.db.nextRowID
    ∧ (m.attachment = Option.none →
        (messageToRow c.db.nextRowID now m).attachment_name = ""
        ∧ (messageToRow c.db.nextRowID now m).attachment_type = ""
        ∧ (messageToRow c.db.nextRowID now m).attachment_size = 0
        ∧ (messageToRow c.db.nextRowID now m).attachment_expires = 0
        ∧ (messageToRow c.db.nextRowID now m).attachment_url = ""
        ∧ (messageToRow c.db.nextRowID now m).attachment_owner = "")
    ∧ (∀ a : Attachment, m.attachment = Option.some a →
        (messageToRow c.db.nextRowID now m).attachment_name = a.name
        ∧ (messageToRow c.db.nextRowID now m).attachment_type = a.type
        ∧ (messageToRow c.db.nextRowID now m).attachment_size = a.size
        ∧ (messageToRow c.db.nextRowID now m).attachment_expires = a.expires
        ∧ (messageToRow c.db.nextRowID now m).attachment_url = a.url
        ∧ (messageToRow c.db.nextRowID now m).attachment_owner = a.owner) := by
  refine ⟨by simp [AddMessage, hev, hnop], ?_⟩
  cases hA : m.attachment with
  | none => simp [messageToRow, hA]
  | some a => simp [messageToRow, hA]

/-- Witness for C1: inserting the attachment-free example message at instant
5 (its time is 3, so it is published on insert). -/
theorem addMessage_flattens_and_sets_published_witness :
    AddMessage exCacheA 5 exMsgA = Except.ok { exCacheA with
        db := { rows := exCacheA.db.rows ++ [messageToRow exCacheA.db.nextRowID 5 exMsgA],
                nextRowID := exCacheA.db.nextRowID + 1 } }
    ∧ ((messageToRow exCacheA.db.nextRowID 5 exMsgA).published = true ↔ exMsgA.time ≤ 5)
    ∧ (messageToRow exCacheA.db.nextRowID 5 exMsgA).mid = exMsgA.id
    ∧ (messageToRow exCacheA.db.nextRowID 5 exMsgA).time = exMsgA.time
    ∧ (messageToRow exCacheA.db.nextRowID 5 exMsgA).updated = exMsgA.updated
    ∧ (messageToRow exCacheA.db.nextRowID 5 exMsgA).topic = exMsgA.topic
    ∧ (messageToRow exCacheA.db.nextRowID 5 exMsgA).message = exMsgA.message
    ∧ (messageToRow exCacheA.db.nextRowID 5 exMsgA).title = exMsgA.title
    ∧ (messageToRow exCacheA.db.nextRowID 5 exMsgA).priority = exMsgA.priority
    ∧ (messageToRow exCacheA.db.nextRowID 5 exMsgA).tags
        = String.intercalate "," exMsgA.tags
    ∧ (messageToRow exCacheA.db.nextRowID 5 exMsgA).click = exMsgA.click
    ∧ (messageToRow exCacheA.db.nextRowID 5 exMsgA).encoding = exMsgA.encoding
    ∧ (messageToRow exCacheA.db.nextRowID 5 exMsgA).id = exCacheA.db.nextRowID
    ∧ (exMsgA.attachment = Option.none →
        (messageToRow exCacheA.db.nextRowID 5 exMsgA).attachment_name = ""
        ∧ (messageToRow exCacheA.db.nextRowID 5 exMsgA).attachment_type = ""
        ∧ (messageToRow exCacheA.db.nextRowID 5 exMsgA).attachment_size = 0
        ∧ (messageToRow exCacheA.db.nextRowID 5 exMsgA).attachment_expires = 0
        ∧ (messageToRow exCacheA.db.nextRowID 5 exMsgA).attachment_url = ""
        ∧ (messageToRow exCacheA.db.nextRowID 5 exMsgA).attachment_owner = "")
    ∧ (∀ a : Attachment, exMsgA.attachment = Option.some a →
        (messageToRow exCacheA.db.nextRowID 5 exMsgA).attachment_name = a.name
        ∧ (messageToRow exCacheA.db.nextRowID 5 exMsgA).attachment_type = a.type
        ∧ (messageToRow exCacheA.db.nextRowID 5 exMsgA).attachment_size = a.size
        ∧ (messageToRow exCacheA.db.nextRowID 5 exMsgA).attachment_expires = a.expires
        ∧ (messageToRow exCacheA.db.nextRowID 5 exMsgA).attachment_url = a.url
        ∧ (messageToRow exCacheA.db.nextRowID 5 exMsgA).attachment_owner = a.owner) :=
  addMessage_flattens_and_sets_published exCacheA 5 exMsgA rfl rfl

/-- Claim C2: an id cursor that matches no row of the topic falls back to the
full-history time query — the result equals the all-messages query for either
scheduled flag. -/
theorem idCursor_fallback_allMessages (c : MessageCache) (topic mid : String)
    (scheduled : Bool)
    (h : ∀ r ∈ c.db.rows, ¬(r.topic = topic ∧ r.mid = mid)) :
    Messages c topic (SinceMarker.sinceID mid) scheduled
      = Messages c topic SinceMarker.allMessages scheduled := by
  have hfind : List.find? (fun r => decide (r.topic = topic) && decide (r.mid = mid))
      c.db.rows = Option.none := by
    rw [List.find?_eq_none]
    intro r hr
    simpa using h r hr
  simp [Messages, SinceMarker.isNone, SinceMarker.isID, messagesSinceID,
        SinceMarker.idVal, findRowID, hfind]

/-- A published row of topic t at position 1 and an unpublished (scheduled)
row of topic t at position 2. -/
def rowC1 : Row :=
  { id := 1, mid := "a", time := 1, updated := 0, topic := "t",
    message := "m1", title := "", priority := 0, tags := "", click := "",
    attachment_name := "", attachment_type := "", attachment_size := 0,
    attachment_expires := 0, attachment_url := "", attachment_owner := "",
    encoding := "", published := true }

/-- The scheduled row behind rowC1's cursor in time but after it in position. -/
def rowC2 : Row :=
  { id := 2, mid := "b", time := 50, updated := 0, topic := "t",
    message := "m2", title := "", priority := 0, tags := "", click := "",
    attachment_name := "", attachment_type := "", attachment_size := 0,
    attachment_expires := 0, attachment_url := "", attachment_owner := "",
    encoding := "", published := false }

/-- A cache holding rowC1 and rowC2. -/
def exCacheC : MessageCache :=
  { db := { rows := [rowC1, rowC2], nextRowID := 3 }, nop := false }

/-- Witness for C2: on the cache holding rows of topic t, the id cursor for
an unknown id z returns the same sequence as the all-messages replay. -/
theorem idCursor_fallback_allMessages_witness :
    Messages exCacheC "t" (SinceMarker.sinceID "z") false
      = Messages exCacheC "t" SinceMarker.allMessages false :=
  idCursor_fallback_allMessages exCacheC "t" "z" false (by decide)

/-- Claim C3: with the id cursor resolved to position p and scheduled
included, the result is exactly the topic's rows with position after p or
published = false — scheduled messages are included even behind the cursor. -/
theorem idCursor_scheduled_or_clause (c : MessageCache) (topic mid : String)
    (p : Int) (h : findRowID c.db topic mid = Option.some p) :
    Messages c topic (SinceMarker.sinceID mid) true
      = readMessages (selectMessagesSinceIDIncludeScheduled c.db topic p)
    ∧ (∀ r : Row, r ∈ selectMessagesSinceIDIncludeScheduled c.db topic p
        ↔ (r ∈ c.db.rows ∧ r.topic = topic ∧ (p < r.id ∨ r.published = false))) := by
  constructor
  · simp [Messages, SinceMarker.isNone, SinceMarker.isID, messagesSinceID,
          SinceMarker.idVal, h]
  · intro r
    simp [selectMessagesSinceIDIncludeScheduled, mem_sortRows, List.mem_filter]

/-- Witness for C3: resolving the cursor at message a (position 1) with
scheduled included on the example cache. -/
theorem idCursor_scheduled_or_clause_witness :
    Messages exCacheC "t" (SinceMarker.sinceID "a") true
      = readMessages (selectMessagesSinceIDIncludeScheduled exCacheC.db "t" 1)
    ∧ (∀ r : Row, r ∈ selectMessagesSinceIDIncludeScheduled exCacheC.db "t" 1
        ↔ (r ∈ exCacheC.db.rows ∧ r.topic = "t" ∧ (1 < r.id ∨ r.published = false))) :=
  idCursor_scheduled_or_clause exCacheC "t" "a" 1 (by decide)

/-- A row of topic t with message id a, published, with attachment data. -/
def rowD1 : Row :=
  { id := 1, mid := "a", time := 10, updated := 10, topic := "t",
    message := "old", title := "o", priority := 1, tags := "x", click := "c0",
    attachment_name := "f.txt", attachment_type := "text/plain",
    attachment_size := 7, attachment_expires := 99,
    attachment_url := "http://u", attachment_owner := "alice",
    encoding := "", published := true }

/-- A cache holding rowD1. -/
def exCacheD : MessageCache :=
  { db := { rows := [rowD1], nextRowID := 2 }, nop := false }

/-- An update for message a of topic t. -/
def exMsgD : Message :=
  { id := "a", time := 99, updated := 11, event := Event.message,
    topic := "t", message := "new", title := "n", priority := 4,
    tags := ["p", "q"], click := "c1", attachment := Option.none,
    encoding := "utf8" }

/-- Claim C8: UpdateMessage rewrites only the six mutable columns of the rows
matching topic and message id, leaves time, published, identity and all
attachment columns of those rows and every non-matching row unchanged, and a
no-match update returns no error with the state unchanged. -/
theorem updateMessage_frame (c : MessageCache) (m : Message)
    (hev : m.event = Event.message) (hnop : c.nop = false) :
    UpdateMessage c m
        = Except.ok { c with db := { c.db with rows := c.db.rows.map (updateRow m) } }
    ∧ (∀ r : Row, ¬(r.topic = m.topic ∧ r.mid = m.id) → updateRow m r = r)
    ∧ (∀ r : Row, r.topic = m.topic ∧ r.mid = m.id →
        (updateRow m r).time = r.time
        ∧ (updateRow m r).published = r.published
        ∧ (updateRow m r).id = r.id
        ∧ (updateRow m r).mid = r.mid
        ∧ (updateRow m r).topic = r.topic
        ∧ (updateRow m r).encoding = r.encoding
        ∧ (updateRow m r).attachment_name = r.attachment_name
        ∧ (updateRow m r).attachment_type = r.attachment_type
        ∧ (updateRow m r).attachment_size = r.attachment_size
        ∧ (updateRow m r).attachment_expires = r.attachment_expires
        ∧ (updateRow m r).attachment_url = r.attachment_url
        ∧ (updateRow m r).attachment_owner = r.attachment_owner
        ∧ (updateRow m r).updated = m.updated
        ∧ (updateRow m r).message = m.message
        ∧ (updateRow m r).title = m.title
        ∧ (updateRow m r).priority = m.priority
        ∧ (updateRow m r).tags = String.intercalate "," m.tags
        ∧ (updateRow m r).click = m.click)
    ∧ ((∀ r ∈ c.db.rows, ¬(r.topic = m.topic ∧ r.mid = m.id)) →
        UpdateMessage c m = Except.ok c) := by
  refine ⟨by simp [UpdateMessage, hev, hnop], ?_, ?_, ?_⟩
  · intro r h
    simp [updateRow, h]
  · intro r h
    simp [updateRow, h]
  · intro hall
    have hmap : c.db.rows.map (updateRow m) = c.db.rows :=
      map_fixed_of_fixed (updateRow m) c.db.rows
        (fun r hr => by simp [updateRow, hall r hr])
    obtain ⟨⟨rows, nid⟩, nop⟩ := c
    simp only at hnop hmap
    subst hnop
    simp [UpdateMessage, hev, hmap]

/-- Witness for C8: updating message a of topic t on the example cache. -/
theorem updateMessage_frame_witness :
    UpdateMessage exCacheD exMsgD
        = Except.ok { exCacheD with
            db := { exCacheD.db with rows := exCacheD.db.rows.map (updateRow exMsgD) } }
    ∧ (∀ r : Row, ¬(r.topic = exMsgD.topic ∧ r.mid = exMsgD.id) →
        updateRow exMsgD r = r)
    ∧ (∀ r : Row, r.topic = exMsgD.topic ∧ r.mid = exMsgD.id →
        (updateRow exMsgD r).time = r.time
        ∧ (updateRow exMsgD r).published = r.published
        ∧ (updateRow exMsgD r).id = r.id
        ∧ (updateRow exMsgD r).mid = r.mid
        ∧ (updateRow exMsgD r).topic = r.topic
        ∧ (updateRow exMsgD r).encoding = r.encoding
        ∧ (updateRow exMsgD r).attachment_name = r.attachment_name
        ∧ (updateRow exMsgD r).attachment_type = r.attachment_type
        ∧ (updateRow exMsgD r).attachment_size = r.attachment_size
        ∧ (updateRow exMsgD r).attachment_expires = r.attachment_expires
        ∧ (updateRow exMsgD r).attachment_url = r.attachment_url
        ∧ (updateRow exMsgD r).attachment_owner = r.attachment_owner
        ∧ (updateRow exMsgD r).updated = exMsgD.updated
        ∧ (updateRow exMsgD r).message = exMsgD.message
        ∧ (updateRow exMsgD r).title = exMsgD.title
        ∧ (updateRow exMsgD r).priority = exMsgD.priority
        ∧ (updateRow exMsgD r).tags = String.intercalate "," exMsgD.tags
        ∧ (updateRow exMsgD r).click = exMsgD.click)
    ∧ ((∀ r ∈ exCacheD.db.rows, ¬(r.topic = exMsgD.topic ∧ r.mid = exMsgD.id)) →
        UpdateMessage exCacheD exMsgD = Except.ok exCacheD) :=
  updateMessage_frame exCacheD exMsgD rfl rfl

end NtfyCache
